import Mathlib

/-!
Shallow embedding of ojn-uptimeproxy (src/main.rs) and verification of its
specification claims.

Modelling conventions: machine integers are Nat/Int with explicit wrapping
where overflow matters; sample timestamps on the query_range grid are whole
seconds, modelled as Int; sample values are carried verbatim by the code and
are modelled as rationals; fallible code returns an explicit outcome type, with
a separate constructor for an uncaught panic (Rust expect on a missing value,
or an out-of-bounds index), which unwinds instead of returning a value.
-/

set_option maxRecDepth 100000

namespace Uptimeproxy

/-- Configuration record, mirroring struct Config (src/main.rs lines 15-23). -/
structure Config where
  prometheus_url : String
  bind_address : String
  domain_allowlist : List String
deriving DecidableEq

/-- Default for prometheus_url (src/main.rs lines 56-58). -/
def prometheus_url_default : String := "http://localhost:9090/"

/-- Default for the bind address (src/main.rs lines 60-62). -/
def bind_address : String := "127.0.0.1:8080"

/-- Default for the domain allowlist (src/main.rs lines 64-66). -/
def domain_allowlist_default : List String := []

/-- Environment variables scoped by the UPTIMEPROXY_ prefix, as collected by
figment from Env prefixed (src/main.rs lines 46-54): each field holds the
parsed value when the variable is present and none when it is absent. -/
structure EnvVars where
  prometheus_url : Option String
  bind_address : Option String
  domain_allowlist : Option (List String)

/-- Configuration extraction (src/main.rs lines 46-54): serde fills each
missing field from its declared default function. -/
def extractConfig (e : EnvVars) : Config :=
  { prometheus_url := e.prometheus_url.getD prometheus_url_default,
    bind_address := e.bind_address.getD bind_address,
    domain_allowlist := e.domain_allowlist.getD domain_allowlist_default }

/-- One (timestamp, value) pair of a backend time series. -/
structure Sample where
  timestamp : Int
  value : ℚ
deriving DecidableEq

/-- One series of a matrix result (a RangeVector); only its sample list is
consulted by the code. -/
structure Series where
  samples : List Sample
deriving DecidableEq

/-- Shape of the parsed backend response data: a matrix of series, or one of
the non-matrix shapes (instant vector, scalar). -/
inductive PromData where
  | matrix : List Series → PromData
  | vector : PromData
  | scalar : PromData
deriving DecidableEq

/-- The as_matrix accessor: some on the matrix shape, none otherwise. -/
def PromData.as_matrix : PromData → Option (List Series)
  | .matrix s => some s
  | _ => none

/-- Outcome of a fallible computation that can also panic: ok and err are the
two sides of the Rust Result; panicked records an uncaught panic, which
unwinds past the caller instead of returning a value to it. -/
inductive Outcome (α : Type) where
  | ok : α → Outcome α
  | err : String → Outcome α
  | panicked : String → Outcome α
deriving DecidableEq

/-- Successful payload, mirroring struct UptimeResponse (src/main.rs 25-30). -/
structure UptimeResponse where
  domain : String
  t0 : ℕ
  uptime_history : List (Option ℚ)
deriving DecidableEq

/-- Error payload, mirroring struct ErrorResponse (src/main.rs 32-35). -/
structure ErrorResponse where
  message : String
deriving DecidableEq

/-- The tagged envelope, mirroring enum Response (src/main.rs 37-44): the tag
serializes as the status field, success or error. -/
inductive Response where
  | Success : UptimeResponse → Response
  | Error : ErrorResponse → Response
deriving DecidableEq

/-- Wrapper mirroring poem web Json: the HTTP body is the JSON serialization
of the wrapped envelope, whatever the status code. -/
structure Json (α : Type) where
  value : α
deriving DecidableEq

/-- The fixed lookback window in days (src/main.rs line 69). -/
def NDAYS : ℕ := 14

/-- The modulus of u64 arithmetic. -/
def U64 : ℕ := 2 ^ 64

/-- Wrapping u64 subtraction (release-profile Rust semantics), for operands
below 2 to the 64. -/
def wrappingSub64 (a b : ℕ) : ℕ := (a + (U64 - b % U64)) % U64

/-- The u64 to i64 cast (as i64): value-preserving below 2 to the 63,
reinterpreted above. -/
def u64_as_i64 (a : ℕ) : Int := if a < 2 ^ 63 then (a : Int) else (a : Int) - (U64 : Int)

/-- t1: current epoch seconds floored to the start of the hour
(src/main.rs lines 75-79). -/
def t1val (now : ℕ) : ℕ := now - now % 3600

/-- t0 = t1 - 3600 * 24 * NDAYS in u64 arithmetic (src/main.rs line 80). -/
def t0val (now : ℕ) : ℕ := wrappingSub64 (t1val now) (3600 * 24 * NDAYS)

/-- The PromQL expression built at src/main.rs lines 72-74. The format string
has no placeholder: the expression is a constant and hard-codes the label
domain equal to the literal zombofant.net. -/
def queryExpr : String :=
  "max(avg_over_time(probe_success\x7bjob=~\"xmppobserve:xmpps?-(client|server)\", domain=\"zombofant.net\"\x7d[1h])) by (domain)"

/-- Body of the sample loop (src/main.rs lines 89-97): the bucket is the i64
truncated division of (timestamp - t0) by 3600; a negative bucket is skipped;
get_mut returns none at or beyond the array length, so the write is dropped
there, which is exactly the behavior of List.set. -/
def bucketStep (t0 : Int) (acc : List (Option ℚ)) (s : Sample) : List (Option ℚ) :=
  let bucket : Int := Int.tdiv (s.timestamp - t0) 3600
  if bucket < 0 then acc
  else acc.set bucket.toNat (some s.value)

/-- The sample-to-bucket pass of query_uptime (src/main.rs lines 87-97): an
array of 24 * NDAYS + 1 slots, all initially none, written in sample order. -/
def bucketize (t0 : Int) (samples : List Sample) : List (Option ℚ) :=
  samples.foldl (bucketStep t0) (List.replicate (24 * NDAYS + 1) none)

/-- The backend interaction: a function from the query_range arguments (query
expression, start, end, step) to either parsed response data or the textual
description of a failure on the Result path (client construction, network,
protocol, malformed payload). -/
def Backend : Type := String → Int → Int → ℚ → Except String PromData

/-- Shallow embedding of query_uptime (src/main.rs lines 68-103). Failures on
the question-mark path become err; the expect call on a non-matrix shape
(line 86) and the index into an empty matrix (line 89) panic instead. -/
def query_uptime (domain : String) (now : ℕ) (backend : Backend) :
    Outcome UptimeResponse :=
  match backend queryExpr (u64_as_i64 (t0val now)) (u64_as_i64 (t1val now)) 3600 with
  | .error e => .err e
  | .ok data =>
    match data.as_matrix with
    | none => .panicked "matrix result"
    | some series =>
      match series with
      | [] => .panicked "index out of bounds: the len is 0 but the index is 0"
      | s0 :: _ =>
        .ok { domain := domain, t0 := t0val now,
              uptime_history := bucketize (Int.ofNat (t0val now)) s0.samples }

/-- Shallow embedding of the uptime handler (src/main.rs lines 105-125): the
outcome carrying the (status code, Json envelope) pair, paired with a flag
recording whether the backend query path was entered (the allowlist rejection
returns before query_uptime is invoked). -/
def uptime (cfg : Config) (domain : String) (now : ℕ) (backend : Backend) :
    Outcome (ℕ × Json Response) × Bool :=
  if !(cfg.domain_allowlist.contains domain) then
    (.ok (404, ⟨.Error ⟨"domain " ++ domain ++ " is not tracked"⟩⟩), false)
  else
    (match query_uptime domain now backend with
     | .ok v => .ok (200, ⟨.Success v⟩)
     | .err e => .ok (500, ⟨.Error ⟨e⟩⟩)
     | .panicked m => .panicked m, true)

/-- Bucket assignment as the amended claim words it: the index is the
truncation toward zero of (timestamp - t0) / 3600; a sample whose index is
negative (timestamp at most t0 - 3600) is discarded, and so is a sample whose
index is at or beyond the array length. -/
def assignedBucket (t0 ts : Int) : Option ℕ :=
  let b : Int := Int.tdiv (ts - t0) 3600
  if b < 0 then none
  else if 24 * NDAYS + 1 ≤ b.toNat then none
  else some b.toNat

/-- The bucket pass as described by the amended claim, for comparison with
bucketize. -/
def bucketizeSpec (t0 : Int) (samples : List Sample) : List (Option ℚ) :=
  samples.foldl
    (fun acc s =>
      match assignedBucket t0 s.timestamp with
      | none => acc
      | some i => acc.set i (some s.value))
    (List.replicate (24 * NDAYS + 1) none)

lemma bucketStep_length (t0 : Int) (acc : List (Option ℚ)) (s : Sample) :
    (bucketStep t0 acc s).length = acc.length := by
  unfold bucketStep
  dsimp only
  split
  · rfl
  · exact List.length_set ..

lemma foldl_bucketStep_length (t0 : Int) (samples : List Sample)
    (acc : List (Option ℚ)) :
    (samples.foldl (bucketStep t0) acc).length = acc.length := by
  induction samples generalizing acc with
  | nil => rfl
  | cons s rest ih => rw [List.foldl_cons, ih, bucketStep_length]

lemma bucketize_length (t0 : Int) (samples : List Sample) :
    (bucketize t0 samples).length = 24 * NDAYS + 1 := by
  rw [bucketize, foldl_bucketStep_length, List.length_replicate]

lemma bucketStep_eq_spec (t0 : Int) (acc : List (Option ℚ)) (s : Sample)
    (h : acc.length = 24 * NDAYS + 1) :
    bucketStep t0 acc s =
      match assignedBucket t0 s.timestamp with
      | none => acc
      | some i => acc.set i (some s.value) := by
  unfold bucketStep assignedBucket
  dsimp only
  by_cases hneg : Int.tdiv (s.timestamp - t0) 3600 < 0
  · simp [hneg]
  · by_cases hbig : 24 * NDAYS + 1 ≤ (Int.tdiv (s.timestamp - t0) 3600).toNat
    · simp only [hneg, if_false, hbig, if_true]
      exact List.set_eq_of_length_le (h ▸ hbig)
    · simp [hneg, hbig]

lemma query_uptime_ok (domain : String) (now : ℕ) (backend : Backend)
    (r : UptimeResponse)
    (h : query_uptime domain now backend = .ok r) :
    ∃ s0 rest,
      backend queryExpr (u64_as_i64 (t0val now)) (u64_as_i64 (t1val now)) 3600
        = .ok (.matrix (s0 :: rest)) ∧
      r = { domain := domain, t0 := t0val now,
            uptime_history := bucketize (Int.ofNat (t0val now)) s0.samples } := by
  unfold query_uptime at h
  cases hB : backend queryExpr (u64_as_i64 (t0val now)) (u64_as_i64 (t1val now)) 3600 with
  | error e => rw [hB] at h; cases h
  | ok data =>
    rw [hB] at h
    cases data with
    | matrix series =>
      cases series with
      | nil => cases h
      | cons s0 rest =>
        injection h with h
        exact ⟨s0, rest, rfl, h.symm⟩
    | vector => cases h
    | scalar => cases h

lemma mem_foldl_bucketStep (P : ℚ → Prop) (t0 : Int) (samples : List Sample)
    (acc : List (Option ℚ))
    (hacc : ∀ v : ℚ, some v ∈ acc → P v)
    (hs : ∀ s ∈ samples, P s.value) :
    ∀ v : ℚ, some v ∈ samples.foldl (bucketStep t0) acc → P v := by
  induction samples generalizing acc with
  | nil => exact hacc
  | cons s rest ih =>
    rw [List.foldl_cons]
    apply ih
    · intro v hv
      unfold bucketStep at hv
      dsimp only at hv
      split at hv
      · exact hacc v hv
      · rcases List.mem_or_eq_of_mem_set hv with hmem | heq
        · exact hacc v hmem
        · have hval : v = s.value := Option.some.inj heq
          rw [hval]
          exact hs s (List.mem_cons_self s rest)
    · intro s2 hs2
      exact hs s2 (List.mem_cons_of_mem _ hs2)

/-- Claim C9 (confirmed): with all three prefixed environment variables absent,
configuration resolution yields the default backend URL, the default loopback
bind address, and the empty allowlist. -/
theorem config_defaults :
    extractConfig ⟨none, none, none⟩ =
      { prometheus_url := "http://localhost:9090/",
        bind_address := "127.0.0.1:8080",
        domain_allowlist := [] } := rfl

/-- Claim C3 (confirmed): every successful query result has exactly
24 * 14 + 1 = 337 history slots, and before any sample is written every slot
holds none. -/
theorem history_length_and_init (domain : String) (now : ℕ) (backend : Backend)
    (r : UptimeResponse) :
    (query_uptime domain now backend = .ok r → r.uptime_history.length = 337) ∧
    (∀ t0 : Int, bucketize t0 [] = List.replicate 337 none) := by
  constructor
  · intro h
    obtain ⟨s0, rest, hB, hr⟩ := query_uptime_ok domain now backend r h
    rw [hr]
    exact bucketize_length ..
  · intro t0
    rfl

/-- Witness for history_length_and_init at a concrete backend response. -/
theorem history_length_and_init_witness :
    ({ domain := "zombofant.net", t0 := 1798790400,
       uptime_history := (List.replicate 337 none).set 0 (some (1/2)) } :
      UptimeResponse).uptime_history.length = 337 :=
  (history_length_and_init "zombofant.net" 1800000000
    (fun _ _ _ _ => .ok (.matrix [⟨[⟨1798788600, 1/2⟩]⟩]))
    ⟨"zombofant.net", 1798790400, (List.replicate 337 none).set 0 (some (1/2))⟩).1 rfl

/-- Claim C7 (confirmed): for every successful response, t0 is divisible by
3600, and equals t1 - 3600 * 24 * 14 where t1 is the current epoch time
floored to the start of the current hour. Stated for any current time of at
least 1209600 seconds (mid January 1970) that fits in u64. -/
theorem t0_alignment (now : ℕ) (h1 : 1209600 ≤ now) (h2 : now < 2 ^ 64) :
    3600 ∣ t0val now ∧
    t0val now = t1val now - 3600 * 24 * 14 ∧
    t1val now = now - now % 3600 := by
  have h3 : t0val now = t1val now - 1209600 := by
    unfold t0val wrappingSub64 U64 NDAYS t1val
    omega
  refine ⟨?_, by rw [h3], rfl⟩
  rw [h3]
  exact ⟨now / 3600 - 336, by unfold t1val; omega⟩

/-- Witness for t0_alignment at a concrete current time. -/
theorem t0_alignment_witness :
    3600 ∣ t0val 1800000000 ∧
    t0val 1800000000 = t1val 1800000000 - 3600 * 24 * 14 ∧
    t1val 1800000000 = 1800000000 - 1800000000 % 3600 :=
  t0_alignment 1800000000 (by norm_num) (by norm_num)

/-- Counterexample to claim C2: t0 is 1798790400 here; the sample at
t0 - 1800 has timestamp strictly before t0, and floor of (ts - t0) / 3600 is
-1, yet the sample is not discarded: the i64 cast and division truncate
toward zero, so the sample is written to bucket 0. -/
theorem sample_before_t0_written_to_bucket0 :
    query_uptime "zombofant.net" 1800000000
        (fun _ _ _ _ => .ok (.matrix [⟨[⟨1798788600, 1/2⟩]⟩])) =
      .ok ⟨"zombofant.net", 1798790400,
        (List.replicate 337 none).set 0 (some (1/2))⟩ ∧
    (bucketize 1798790400 [⟨1798788600, 1/2⟩])[0]? = some (some (1/2)) ∧
    Int.fdiv (1798788600 - 1798790400) 3600 = -1 := by
  refine ⟨rfl, rfl, by decide⟩

/-- Claim C2 amended: the bucket pass realizes exactly this assignment: each
sample goes to the bucket given by truncation toward zero (not floor) of
(timestamp - t0) / 3600; a sample whose index is negative, which means
timestamp at most t0 - 3600, is discarded, as is a sample whose index is at or
beyond the array length; a sample with t0 - 3600 < timestamp < t0 therefore
lands in bucket 0 instead of being discarded. -/
theorem bucketize_eq_spec (t0 : Int) (samples : List Sample) :
    bucketize t0 samples = bucketizeSpec t0 samples := by
  unfold bucketize bucketizeSpec
  have key : ∀ (ss : List Sample) (acc : List (Option ℚ)),
      acc.length = 24 * NDAYS + 1 →
      ss.foldl (bucketStep t0) acc =
        ss.foldl (fun acc s =>
          match assignedBucket t0 s.timestamp with
          | none => acc
          | some i => acc.set i (some s.value)) acc := by
    intro ss
    induction ss with
    | nil => intro acc _; rfl
    | cons s rest ih =>
      intro acc hlen
      rw [List.foldl_cons, List.foldl_cons, bucketStep_eq_spec t0 acc s hlen]
      apply ih
      cases hA : assignedBucket t0 s.timestamp with
      | none => exact hlen
      | some i => exact (List.length_set acc i (some s.value)).trans hlen
  exact key samples _ (List.length_replicate ..)

/-- Claim C4 (confirmed): with a stubbed backend returning exactly one series
holding the single sample (t0 + 3600 * 5, 0.87), the resulting history has
0.87 at index 5 and none at every other index; a sample at t0 - 3600 is
discarded and appears in no bucket; a sample at t0 + 3600 * 400 is discarded
as well. Here t0 is 1798790400 and 0.87 is the rational 87 / 100. -/
theorem stubbed_backend_examples :
    (query_uptime "zombofant.net" 1800000000
        (fun _ _ _ _ => .ok (.matrix [⟨[⟨1798790400 + 3600 * 5, 87/100⟩]⟩])) =
      .ok ⟨"zombofant.net", 1798790400,
        (List.replicate 337 none).set 5 (some (87/100))⟩) ∧
    (((List.replicate 337 (none : Option ℚ)).set 5 (some (87/100)))[5]? =
      some (some (87/100))) ∧
    (∀ i : ℕ, i < 337 → i ≠ 5 →
      ((List.replicate 337 (none : Option ℚ)).set 5 (some (87/100)))[i]? =
        some none) ∧
    (query_uptime "zombofant.net" 1800000000
        (fun _ _ _ _ => .ok (.matrix [⟨[⟨1798790400 - 3600, 87/100⟩]⟩])) =
      .ok ⟨"zombofant.net", 1798790400, List.replicate 337 none⟩) ∧
    (query_uptime "zombofant.net" 1800000000
        (fun _ _ _ _ => .ok (.matrix [⟨[⟨1798790400 + 3600 * 400, 87/100⟩]⟩])) =
      .ok ⟨"zombofant.net", 1798790400, List.replicate 337 none⟩) := by
  refine ⟨rfl, rfl, ?_, rfl, rfl⟩
  intro i h1 h2
  rw [List.getElem?_set]
  rw [if_neg (by omega : ¬ 5 = i)]
  rw [List.getElem?_replicate, if_pos h1]

/-- Claim C5 (confirmed): for every requested domain whose exact string is not
a member of the allowlist, under every configuration including the empty
allowlist, the handler returns 404 with an Error envelope whose message
contains the requested domain string, the backend query path is never entered,
and the result does not depend on the backend at all. -/
theorem unlisted_domain_404 (cfg : Config) (domain : String) (now : ℕ)
    (backend : Backend) (h : cfg.domain_allowlist.contains domain = false) :
    uptime cfg domain now backend =
      (.ok (404, ⟨.Error ⟨"domain " ++ domain ++ " is not tracked"⟩⟩), false) ∧
    (∃ pre post,
      "domain " ++ domain ++ " is not tracked" = pre ++ domain ++ post) ∧
    (∀ backend2 : Backend,
      uptime cfg domain now backend2 = uptime cfg domain now backend) ∧
    ¬ domain ∈ cfg.domain_allowlist := by
  have hmain : ∀ b : Backend, uptime cfg domain now b =
      (.ok (404, ⟨.Error ⟨"domain " ++ domain ++ " is not tracked"⟩⟩), false) := by
    intro b
    unfold uptime
    rw [h]
    rfl
  refine ⟨hmain backend, ⟨"domain ", " is not tracked", rfl⟩,
    fun b2 => (hmain b2).trans (hmain backend).symm, ?_⟩
  simpa using h

/-- Witness for unlisted_domain_404: empty allowlist rejects example.org. -/
theorem unlisted_domain_404_witness :
    uptime ⟨"http://localhost:9090/", "127.0.0.1:8080", []⟩ "example.org"
        1800000000 (fun _ _ _ _ => .ok .vector) =
      (.ok (404, ⟨.Error ⟨"domain " ++ "example.org" ++ " is not tracked"⟩⟩),
        false) :=
  (unlisted_domain_404 ⟨"http://localhost:9090/", "127.0.0.1:8080", []⟩
    "example.org" 1800000000 (fun _ _ _ _ => .ok .vector) rfl).1

/-- Claim C6 (confirmed): every response the handler actually produces (panics
produce none) carries the Json-wrapped envelope as its body, and the HTTP
status and the envelope tag are mutually consistent: status 200 occurs exactly
with the success tag, and statuses 404 and 500 occur exactly with the error
tag; no other status occurs. -/
theorem status_tag_consistent (cfg : Config) (domain : String) (now : ℕ)
    (backend : Backend) (s : ℕ) (env : Json Response)
    (h : (uptime cfg domain now backend).1 = .ok (s, env)) :
    (s = 200 ↔ ∃ u, env = ⟨.Success u⟩) ∧
    ((s = 404 ∨ s = 500) ↔ ∃ m, env = ⟨.Error m⟩) ∧
    (s = 200 ∨ s = 404 ∨ s = 500) := by
  unfold uptime at h
  cases hc : cfg.domain_allowlist.contains domain with
  | false =>
    rw [hc] at h
    simp only [Bool.not_false, if_true] at h
    injection h with h
    injection h with hs he
    subst hs
    subst he
    refine ⟨⟨by omega, ?_⟩, ⟨fun _ => ⟨_, rfl⟩, fun _ => Or.inl rfl⟩, Or.inr (Or.inl rfl)⟩
    rintro ⟨u, hu⟩
    cases hu
  | true =>
    rw [hc] at h
    simp only [Bool.not_true, if_false] at h
    cases hq : query_uptime domain now backend with
    | ok v =>
      rw [hq] at h
      injection h with h
      injection h with hs he
      subst hs
      subst he
      refine ⟨⟨fun _ => ⟨v, rfl⟩, fun _ => rfl⟩, ⟨by omega, ?_⟩, Or.inl rfl⟩
      rintro ⟨m, hm⟩
      cases hm
    | err e =>
      rw [hq] at h
      injection h with h
      injection h with hs he
      subst hs
      subst he
      refine ⟨⟨by omega, ?_⟩, ⟨fun _ => ⟨_, rfl⟩, fun _ => Or.inr rfl⟩,
        Or.inr (Or.inr rfl)⟩
      rintro ⟨u, hu⟩
      cases hu
    | panicked m =>
      rw [hq] at h
      cases h

/-- Witness for status_tag_consistent at a concrete 404 response. -/
theorem status_tag_consistent_witness :
    ((404 : ℕ) = 200 ↔
      ∃ u, (⟨.Error ⟨"domain " ++ "x" ++ " is not tracked"⟩⟩ : Json Response) =
        ⟨.Success u⟩) ∧
    (((404 : ℕ) = 404 ∨ (404 : ℕ) = 500) ↔
      ∃ m, (⟨.Error ⟨"domain " ++ "x" ++ " is not tracked"⟩⟩ : Json Response) =
        ⟨.Error m⟩) ∧
    ((404 : ℕ) = 200 ∨ (404 : ℕ) = 404 ∨ (404 : ℕ) = 500) :=
  status_tag_consistent ⟨"http://localhost:9090/", "127.0.0.1:8080", []⟩ "x" 0
    (fun _ _ _ _ => .ok .vector) 404
    ⟨.Error ⟨"domain " ++ "x" ++ " is not tracked"⟩⟩ rfl

/-- Counterexample to claim C1: with an allowlisted domain and a backend reply
whose result is not a matrix, the request does not complete with a 500 Error
envelope: the expect call panics, and the handler produces no ok response at
all. -/
theorem nonmatrix_panics_not_500 :
    (uptime ⟨"http://localhost:9090/", "127.0.0.1:8080", ["zombofant.net"]⟩
        "zombofant.net" 1800000000 (fun _ _ _ _ => .ok .vector)).1 =
      .panicked "matrix result" ∧
    ∀ (s : ℕ) (env : Json Response),
      (uptime ⟨"http://localhost:9090/", "127.0.0.1:8080", ["zombofant.net"]⟩
          "zombofant.net" 1800000000 (fun _ _ _ _ => .ok .vector)).1 ≠
        .ok (s, env) := by
  have hmain : (uptime ⟨"http://localhost:9090/", "127.0.0.1:8080",
      ["zombofant.net"]⟩ "zombofant.net" 1800000000
      (fun _ _ _ _ => .ok .vector)).1 = .panicked "matrix result" := rfl
  refine ⟨hmain, fun s env h => ?_⟩
  rw [hmain] at h
  cases h

/-- Claim C1 amended: for an allowlisted domain, failures carried on the
Result path of the query (client construction, network, protocol, parse) are
converted into a 500 response with the Error envelope holding the error text;
but a backend reply that is not a matrix, or a matrix containing zero series,
instead makes the per-request code panic (the expect call at the matrix
conversion, or the index into the empty series list), so such requests produce
no response envelope at all; in no case does a 200 carry an incomplete
array. -/
theorem per_request_failure_paths (cfg : Config) (domain : String) (now : ℕ)
    (h : cfg.domain_allowlist.contains domain = true) :
    (∀ e : String, uptime cfg domain now (fun _ _ _ _ => .error e) =
      (.ok (500, ⟨.Error ⟨e⟩⟩), true)) ∧
    (uptime cfg domain now (fun _ _ _ _ => .ok .vector) =
      (.panicked "matrix result", true)) ∧
    (uptime cfg domain now (fun _ _ _ _ => .ok .scalar) =
      (.panicked "matrix result", true)) ∧
    (uptime cfg domain now (fun _ _ _ _ => .ok (.matrix [])) =
      (.panicked "index out of bounds: the len is 0 but the index is 0",
        true)) := by
  refine ⟨fun e => ?_, ?_, ?_, ?_⟩ <;>
    · unfold uptime query_uptime
      rw [h]
      rfl

/-- Witness for per_request_failure_paths: a concrete transport failure is
surfaced as a 500 Error envelope. -/
theorem per_request_failure_paths_witness :
    uptime ⟨"http://localhost:9090/", "127.0.0.1:8080", ["zombofant.net"]⟩
        "zombofant.net" 1800000000 (fun _ _ _ _ => .error "connection refused") =
      (.ok (500, ⟨.Error ⟨"connection refused"⟩⟩), true) :=
  (per_request_failure_paths
    ⟨"http://localhost:9090/", "127.0.0.1:8080", ["zombofant.net"]⟩
    "zombofant.net" 1800000000 rfl).1 "connection refused"

/-- Counterexample to claim C8: the query path accepts a backend sample whose
value is 2 and copies it into the history unchecked, so a successful response
can hold a present value outside the closed interval from 0 to 1. -/
theorem out_of_range_value_accepted :
    query_uptime "zombofant.net" 1800000000
        (fun _ _ _ _ => .ok (.matrix [⟨[⟨1798790400, 2⟩]⟩])) =
      .ok ⟨"zombofant.net", 1798790400,
        (List.replicate 337 none).set 0 (some 2)⟩ ∧
    some (2 : ℚ) ∈ (List.replicate 337 (none : Option ℚ)).set 0 (some 2) ∧
    ¬((0 : ℚ) ≤ 2 ∧ (2 : ℚ) ≤ 1) := by
  refine ⟨rfl, ?_, by norm_num⟩
  rw [show (337 : ℕ) = 336 + 1 from rfl, List.replicate_succ, List.set_cons_zero]
  exact List.mem_cons_self ..

/-- Claim C8 amended: present history values are copied verbatim from the
consulted series without clamping or checking; therefore whenever every sample
value of the consulted (first) series lies in the closed interval from 0 to 1,
every present value of the returned history lies in that interval as well. -/
theorem values_in_range_of_backend_in_range (domain : String) (now : ℕ)
    (backend : Backend) (r : UptimeResponse) (s0 : Series) (rest : List Series)
    (hB : backend queryExpr (u64_as_i64 (t0val now)) (u64_as_i64 (t1val now))
        3600 = .ok (.matrix (s0 :: rest)))
    (hv : ∀ s ∈ s0.samples, 0 ≤ s.value ∧ s.value ≤ 1)
    (hq : query_uptime domain now backend = .ok r) :
    ∀ v : ℚ, some v ∈ r.uptime_history → 0 ≤ v ∧ v ≤ 1 := by
  obtain ⟨s0x, restx, hBx, hr⟩ := query_uptime_ok domain now backend r hq
  rw [hB] at hBx
  injection hBx with hBx
  injection hBx with hBx
  injection hBx with hs0 hrest
  subst hs0
  rw [hr]
  apply mem_foldl_bucketStep (fun v => 0 ≤ v ∧ v ≤ 1) _ _ _ _ hv
  intro v hv2
  exact absurd (List.eq_of_mem_replicate hv2) (by simp)

/-- Witness for values_in_range_of_backend_in_range at the concrete sample
value 87 / 100. -/
theorem values_in_range_witness : (0 : ℚ) ≤ 87/100 ∧ (87/100 : ℚ) ≤ 1 :=
  values_in_range_of_backend_in_range "zombofant.net" 1800000000
    (fun _ _ _ _ => .ok (.matrix [⟨[⟨1798790400 + 3600 * 5, 87/100⟩]⟩]))
    ⟨"zombofant.net", 1798790400, (List.replicate 337 none).set 5 (some (87/100))⟩
    ⟨[⟨1798790400 + 3600 * 5, 87/100⟩]⟩ [] rfl
    (by
      intro s hs
      rw [List.mem_singleton] at hs
      subst hs
      constructor <;> norm_num)
    rfl (87/100)
    (by
      have hlen : (5 : ℕ) <
          ((List.replicate 337 (none : Option ℚ)).set 5 (some (87/100))).length := by
        rw [List.length_set, List.length_replicate]
        omega
      have h5 : ((List.replicate 337 (none : Option ℚ)).set 5
          (some (87/100)))[5] = some (87/100) := List.getElem_set_self hlen
      exact h5 ▸ List.getElem_mem hlen)

/-- Claim C10 (confirmed): the query expression sent to the backend is a fixed
constant that hard-codes the label domain equal to zombofant.net and does not
depend on the requested domain; for any two allowlisted domains queried under
identical backend behavior at the identical time, the successful responses
agree on t0 and on the whole uptime history and differ only in the domain
field, which echoes the requested path segment. -/
theorem query_constant_domain_independent (d1 d2 : String) (now : ℕ)
    (backend : Backend) (r1 r2 : UptimeResponse)
    (h1 : query_uptime d1 now backend = .ok r1)
    (h2 : query_uptime d2 now backend = .ok r2) :
    (∃ pre post, queryExpr = pre ++ "zombofant.net" ++ post) ∧
    r1.t0 = r2.t0 ∧ r1.uptime_history = r2.uptime_history ∧
    r1.domain = d1 ∧ r2.domain = d2 := by
  obtain ⟨s0, rest, hB1, hr1⟩ := query_uptime_ok d1 now backend r1 h1
  obtain ⟨s0x, restx, hB2, hr2⟩ := query_uptime_ok d2 now backend r2 h2
  rw [hB1] at hB2
  injection hB2 with hB2
  injection hB2 with hB2
  injection hB2 with hs0 hrest
  subst hs0
  rw [hr1, hr2]
  exact ⟨⟨"max(avg_over_time(probe_success\x7bjob=~\"xmppobserve:xmpps?-(client|server)\", domain=\"",
    "\"\x7d[1h])) by (domain)", rfl⟩, rfl, rfl, rfl, rfl⟩

/-- Witness for query_constant_domain_independent at two concrete domains and
a concrete backend. -/
theorem query_constant_domain_independent_witness :
    (∃ pre post, queryExpr = pre ++ "zombofant.net" ++ post) ∧
    ({ domain := "a", t0 := 1798790400,
       uptime_history := List.replicate 337 none } : UptimeResponse).t0 =
      ({ domain := "b", t0 := 1798790400,
         uptime_history := List.replicate 337 none } : UptimeResponse).t0 ∧
    ({ domain := "a", t0 := 1798790400,
       uptime_history := List.replicate 337 none } :
        UptimeResponse).uptime_history =
      ({ domain := "b", t0 := 1798790400,
         uptime_history := List.replicate 337 none } :
        UptimeResponse).uptime_history ∧
    ({ domain := "a", t0 := 1798790400,
       uptime_history := List.replicate 337 none } : UptimeResponse).domain =
      "a" ∧
    ({ domain := "b", t0 := 1798790400,
       uptime_history := List.replicate 337 none } : UptimeResponse).domain =
      "b" :=
  query_constant_domain_independent "a" "b" 1800000000
    (fun _ _ _ _ => .ok (.matrix [⟨[]⟩]))
    ⟨"a", 1798790400, List.replicate 337 none⟩
    ⟨"b", 1798790400, List.replicate 337 none⟩ rfl rfl

end Uptimeproxy
